import Mathlib

/-!
Shallow embedding of `src/free_mcp_hasan.js`, the MCP AI-assistant server.

The embedding covers the request-dispatch core: the client registry built
from the environment credentials, the model catalogs, the
`CallToolRequestSchema` handler with its three tools (`generate_text`,
`list_models`, `chat_conversation`), argument validation, provider/model
selection, backend invocation, result extraction and error classification.

The backend (the `openai` client's `chat.completions.create`) is an external
collaborator: it is modelled as an oracle function from provider id and
request parameters to an outcome (a response object or a raised error).
`handleToolCall` additionally records the list of backend invocations it
performed, so that "no backend is invoked" is statable.

JavaScript truthiness matters at several points and is embedded explicitly:
an env credential is a client iff the variable is set (truthy), string
arguments are falsy exactly when absent or `""`, numeric arguments are falsy
exactly when absent or `0` (numbers are modelled as `ℚ`, which has no NaN).
-/

/-- One chat message object `{role, content}`. -/
structure ChatMessage where
  role : String
  content : String
deriving DecidableEq

/-- Presence of the three startup credentials. The source builds the
`clients` registry with `clients.huggingface` present iff `HF_TOKEN` is
truthy, and similarly for `OPENAI_API_KEY` and `ANTHROPIC_API_KEY`. -/
structure Config where
  hf_token : Bool
  openai_api_key : Bool
  anthropic_api_key : Bool
deriving DecidableEq

/-- `getAvailableProviders()` of the source: pushes the provider ids of the
configured clients in the fixed check order huggingface, openai, anthropic. -/
def getAvailableProviders (config : Config) : List String :=
  let available : List String := []
  let available := if config.hf_token then available ++ ["huggingface"] else available
  let available := if config.openai_api_key then available ++ ["openai"] else available
  let available := if config.anthropic_api_key then available ++ ["anthropic"] else available
  available

/-- The `MODELS` table of the source: catalog of model ids per provider
(the source object has no entry for other keys, embedded as `[]`). -/
def MODELS (provider : String) : List String :=
  if provider = "huggingface" then
    ["meta-llama/Llama-3.2-3B-Instruct",
     "microsoft/DialoGPT-medium",
     "facebook/blenderbot-400M-distill",
     "Qwen/Qwen2.5-Coder-32B-Instruct"]
  else if provider = "openai" then
    ["gpt-4o",
     "gpt-4o-mini",
     "gpt-3.5-turbo",
     "o1-preview",
     "o1-mini"]
  else if provider = "anthropic" then
    ["claude-3-5-sonnet-20241022",
     "claude-3-5-haiku-20241022",
     "claude-3-opus-20240229"]
  else []

/-- `getDefaultModel(provider)` of the source; `none` embeds the JS
`undefined` produced by a lookup of an unknown key. -/
def getDefaultModel (provider : String) : Option String :=
  if provider = "huggingface" then some "meta-llama/Llama-3.2-3B-Instruct"
  else if provider = "openai" then some "gpt-4o-mini"
  else if provider = "anthropic" then some "claude-3-5-haiku-20241022"
  else none

/-- The `messages` argument as received: a JSON array of messages, or a
value that is not an array (`!Array.isArray(messages)`). -/
inductive MessagesArg where
  | arr (ms : List ChatMessage)
  | notArray
deriving DecidableEq

/-- The argument object of a tool call. Absent fields are `none`.
A supplied `prompt`/`provider`/`model` is a string (possibly empty);
`max_tokens`/`temperature` are numbers, modelled as `ℚ`. -/
structure ToolArgs where
  prompt : Option String := none
  provider : Option String := none
  model : Option String := none
  max_tokens : Option ℚ := none
  temperature : Option ℚ := none
  messages : Option MessagesArg := none
deriving DecidableEq

/-- The `requestParams` object passed to `client.chat.completions.create`. -/
structure RequestParams where
  model : String
  messages : List ChatMessage
  max_tokens : ℚ
  temperature : ℚ
deriving DecidableEq

/-- `message` object of a response choice; `content` may be absent. -/
structure ChoiceMessage where
  content : Option String
deriving DecidableEq

/-- One element of `response.choices`; `message` may be absent. -/
structure Choice where
  message : Option ChoiceMessage
deriving DecidableEq

/-- The backend response object: `{choices: [...]}`. -/
structure BackendResponse where
  choices : List Choice
deriving DecidableEq

/-- A raised backend error: `error.response?.status` and `error.message`,
each possibly absent. -/
structure BackendError where
  status : Option Nat
  message : Option String
deriving DecidableEq

/-- Outcome of one `client.chat.completions.create` call: a response, or a
raised error (caught by the handler's `catch`). -/
inductive BackendOutcome where
  | ok (response : BackendResponse)
  | err (error : BackendError)
deriving DecidableEq

/-- The backend oracle: provider id and request parameters to outcome. -/
abbrev Backend := String → RequestParams → BackendOutcome

/-- The result of one tool call: the response `text`, plus the record of
backend invocations performed (provider id and request parameters), so that
claims of the form "no backend is invoked" are statable. -/
structure ToolResult where
  text : String
  calls : List (String × RequestParams)
deriving DecidableEq

/-- The `generate_text` no-providers message (source lines 118-123). -/
def noProvidersGenerateText : String :=
  "No AI providers configured. Please set one of the following environment variables:\n- HF_TOKEN (for Hugging Face)\n- OPENAI_API_KEY (for OpenAI)\n- ANTHROPIC_API_KEY (for Anthropic)\n\nThen restart the server."

/-- `provider.toUpperCase()` of the source: character-wise uppercase (the
provider ids are ASCII). Implemented over the character list rather than via
`String.toUpper` so that it evaluates by kernel reduction. -/
def toUpperId (s : String) : String := String.mk (s.data.map Char.toUpper)

/-- The `CallToolRequestSchema` handler of the source, lines 97-288.
Faithful to the duplicated inline logic of the two generation branches. -/
def handleToolCall (config : Config) (backend : Backend) (name : String)
    (args : ToolArgs) : ToolResult :=
  if name = "generate_text" then
    match args.prompt with
    | none => { text := "Error: Prompt is required", calls := [] }
    | some prompt =>
      if prompt = "" then { text := "Error: Prompt is required", calls := [] }
      else
        let availableProviders := getAvailableProviders config
        if availableProviders = [] then
          { text := noProvidersGenerateText, calls := [] }
        else
          let selectedProvider :=
            match args.provider with
            | some p =>
              if p ≠ "" ∧ p ∈ availableProviders then p else availableProviders.headD ""
            | none => availableProviders.headD ""
          let selectedModel :=
            match args.model with
            | some m => if m = "" then (getDefaultModel selectedProvider).getD "" else m
            | none => (getDefaultModel selectedProvider).getD ""
          let requestParams : RequestParams :=
            { model := selectedModel,
              messages := [{ role := "user", content := prompt }],
              max_tokens :=
                match args.max_tokens with
                | some v => if v = 0 then 1024 else v
                | none => 1024,
              temperature :=
                match args.temperature with
                | some v => if v = 0 then 7/10 else v
                | none => 7/10 }
          match backend selectedProvider requestParams with
          | .ok response =>
            let generatedText :=
              match (response.choices.head?.bind Choice.message).bind ChoiceMessage.content with
              | some s => if s = "" then "No response generated" else s
              | none => "No response generated"
            { text := generatedText, calls := [(selectedProvider, requestParams)] }
          | .err error =>
            let errorMessage :=
              if error.status = some 401 then
                "Authentication failed for " ++ selectedProvider ++ ". Please check your API key."
              else if error.status = some 429 then
                "Rate limit exceeded for " ++ selectedProvider ++ ". Please try again later."
              else
                match error.message with
                | some m => if m = "" then "Failed to generate text" else m
                | none => "Failed to generate text"
            { text := "Error: " ++ errorMessage, calls := [(selectedProvider, requestParams)] }
  else if name = "list_models" then
    let availableProviders := getAvailableProviders config
    if availableProviders = [] then
      { text := "No AI providers configured.", calls := [] }
    else
      let modelList := availableProviders.foldl (fun acc provider =>
        let acc := acc ++ "**" ++ toUpperId provider ++ ":**\n"
        let acc := (MODELS provider).foldl (fun acc model =>
          let isDefault := some model = getDefaultModel provider
          acc ++ "- " ++ model ++ (if isDefault then " (default)" else "") ++ "\n") acc
        acc ++ "\n") "Available AI Models:\n\n"
      { text := modelList, calls := [] }
  else if name = "chat_conversation" then
    match args.messages with
    | none => { text := "Error: Messages array is required", calls := [] }
    | some MessagesArg.notArray => { text := "Error: Messages array is required", calls := [] }
    | some (MessagesArg.arr messages) =>
      if messages = [] then { text := "Error: Messages array is required", calls := [] }
      else
        let availableProviders := getAvailableProviders config
        if availableProviders = [] then
          { text := "No AI providers configured.", calls := [] }
        else
          let selectedProvider :=
            match args.provider with
            | some p =>
              if p ≠ "" ∧ p ∈ availableProviders then p else availableProviders.headD ""
            | none => availableProviders.headD ""
          let selectedModel :=
            match args.model with
            | some m => if m = "" then (getDefaultModel selectedProvider).getD "" else m
            | none => (getDefaultModel selectedProvider).getD ""
          let requestParams : RequestParams :=
            { model := selectedModel,
              messages := messages,
              max_tokens :=
                match args.max_tokens with
                | some v => if v = 0 then 1024 else v
                | none => 1024,
              temperature :=
                match args.temperature with
                | some v => if v = 0 then 7/10 else v
                | none => 7/10 }
          match backend selectedProvider requestParams with
          | .ok response =>
            let generatedText :=
              match (response.choices.head?.bind Choice.message).bind ChoiceMessage.content with
              | some s => if s = "" then "No response generated" else s
              | none => "No response generated"
            { text := generatedText, calls := [(selectedProvider, requestParams)] }
          | .err error =>
            let errorMessage :=
              if error.status = some 401 then
                "Authentication failed for " ++ selectedProvider ++ ". Please check your API key."
              else if error.status = some 429 then
                "Rate limit exceeded for " ++ selectedProvider ++ ". Please try again later."
              else
                match error.message with
                | some m => if m = "" then "Failed to process chat" else m
                | none => "Failed to process chat"
            { text := "Error: " ++ errorMessage, calls := [(selectedProvider, requestParams)] }
  else
    { text := "Unknown tool: " ++ name, calls := [] }

/-! ### Spec-side decomposition

Named pieces of the dispatch pipeline, matching §4 of the specification.
`handleToolCall` above inlines this logic twice, exactly as the source
duplicates it between the two generation tools; the dispatch lemmas below
prove the monolithic handler equal to this decomposition. -/

/-- Provider resolution (§4.2 step 4): a truthy requested provider that is a
member of the available list wins; otherwise the first available entry. -/
def resolvedProvider (availableProviders : List String) (provider : Option String) : String :=
  match provider with
  | some p => if p ≠ "" ∧ p ∈ availableProviders then p else availableProviders.headD ""
  | none => availableProviders.headD ""

/-- Model resolution: a truthy requested model is used verbatim; otherwise
the selected provider's default model. -/
def resolvedModel (selectedProvider : String) (model : Option String) : String :=
  match model with
  | some m => if m = "" then (getDefaultModel selectedProvider).getD "" else m
  | none => (getDefaultModel selectedProvider).getD ""

/-- Numeric defaulting `value || fallback`: absent or zero takes the
fallback. -/
def resolvedNum (value : Option ℚ) (fallback : ℚ) : ℚ :=
  match value with
  | some v => if v = 0 then fallback else v
  | none => fallback

/-- Result extraction (§4.2 step 6): `choices[0]?.message?.content` when
truthy, else the fixed placeholder. -/
def extractText (response : BackendResponse) : String :=
  match (response.choices.head?.bind Choice.message).bind ChoiceMessage.content with
  | some s => if s = "" then "No response generated" else s
  | none => "No response generated"

/-- Error classification (§4.3): status 401, then 429, then a truthy
`error.message`, then the tool-dependent fallback. -/
def renderError (error : BackendError) (selectedProvider fallback : String) : String :=
  if error.status = some 401 then
    "Authentication failed for " ++ selectedProvider ++ ". Please check your API key."
  else if error.status = some 429 then
    "Rate limit exceeded for " ++ selectedProvider ++ ". Please try again later."
  else
    match error.message with
    | some m => if m = "" then fallback else m
    | none => fallback

/-- Invocation plus outcome mapping (§4.2 steps 5-6 and failure handling):
one backend call, recorded, and success/error rendering of the text. -/
def dispatchOutcome (backend : Backend) (selectedProvider : String)
    (requestParams : RequestParams) (fallback : String) : ToolResult :=
  match backend selectedProvider requestParams with
  | .ok response =>
    { text := extractText response, calls := [(selectedProvider, requestParams)] }
  | .err error =>
    { text := "Error: " ++ renderError error selectedProvider fallback,
      calls := [(selectedProvider, requestParams)] }

/-- The request parameters built by `generate_text` after validation. -/
def generateParams (availableProviders : List String) (args : ToolArgs)
    (prompt : String) : RequestParams :=
  { model := resolvedModel (resolvedProvider availableProviders args.provider) args.model,
    messages := [{ role := "user", content := prompt }],
    max_tokens := resolvedNum args.max_tokens 1024,
    temperature := resolvedNum args.temperature (7/10) }

/-- The request parameters built by `chat_conversation` after validation. -/
def chatParams (availableProviders : List String) (args : ToolArgs)
    (messages : List ChatMessage) : RequestParams :=
  { model := resolvedModel (resolvedProvider availableProviders args.provider) args.model,
    messages := messages,
    max_tokens := resolvedNum args.max_tokens 1024,
    temperature := resolvedNum args.temperature (7/10) }

/-- The `list_models` branch of the handler, as a function of the
configuration alone (it reads neither the arguments nor the backend). -/
def listModelsResult (config : Config) : ToolResult :=
  let availableProviders := getAvailableProviders config
  if availableProviders = [] then
    { text := "No AI providers configured.", calls := [] }
  else
    let modelList := availableProviders.foldl (fun acc provider =>
      let acc := acc ++ "**" ++ toUpperId provider ++ ":**\n"
      let acc := (MODELS provider).foldl (fun acc model =>
        let isDefault := some model = getDefaultModel provider
        acc ++ "- " ++ model ++ (if isDefault then " (default)" else "") ++ "\n") acc
      acc ++ "\n") "Available AI Models:\n\n"
    { text := modelList, calls := [] }

/-! ### Dispatch lemmas -/

/-- `list_models` ignores the backend oracle and the arguments. -/
theorem handle_list_models (config : Config) (backend : Backend) (args : ToolArgs) :
    handleToolCall config backend "list_models" args = listModelsResult config := rfl

/-- A `generate_text` call that passes validation (truthy prompt, at least
one provider) performs exactly the dispatch pipeline. -/
theorem handle_generate_text (config : Config) (backend : Backend) (args : ToolArgs)
    (prompt : String) (hp : args.prompt = some prompt) (hne : prompt ≠ "")
    (hcfg : getAvailableProviders config ≠ []) :
    handleToolCall config backend "generate_text" args =
      dispatchOutcome backend
        (resolvedProvider (getAvailableProviders config) args.provider)
        (generateParams (getAvailableProviders config) args prompt)
        "Failed to generate text" := by
  unfold handleToolCall dispatchOutcome generateParams resolvedProvider resolvedModel
    resolvedNum extractText renderError
  rw [hp]
  simp only [String.reduceEq, reduceIte, if_neg hne, if_neg hcfg]

/-- A `chat_conversation` call that passes validation (non-empty message
array, at least one provider) performs exactly the dispatch pipeline. -/
theorem handle_chat_conversation (config : Config) (backend : Backend) (args : ToolArgs)
    (messages : List ChatMessage) (hm : args.messages = some (MessagesArg.arr messages))
    (hne : messages ≠ []) (hcfg : getAvailableProviders config ≠ []) :
    handleToolCall config backend "chat_conversation" args =
      dispatchOutcome backend
        (resolvedProvider (getAvailableProviders config) args.provider)
        (chatParams (getAvailableProviders config) args messages)
        "Failed to process chat" := by
  unfold handleToolCall dispatchOutcome chatParams resolvedProvider resolvedModel
    resolvedNum extractText renderError
  rw [hm]
  simp only [String.reduceEq, reduceIte, if_neg hne, if_neg hcfg]

/-- Every member of the available-provider list is one of the three fixed
provider ids. -/
theorem mem_getAvailableProviders (config : Config) (p : String)
    (hp : p ∈ getAvailableProviders config) :
    p = "huggingface" ∨ p = "openai" ∨ p = "anthropic" := by
  rcases config with ⟨hf, op, an⟩
  cases hf <;> cases op <;> cases an <;>
    simp [getAvailableProviders] at hp <;> tauto

/-! ### Measurement helpers for the rendered `list_models` text -/

set_option maxRecDepth 8000

/-- Split a character list into lines at newline characters. -/
def splitLinesAux (cs : List Char) (acc : List Char) : List (List Char) :=
  match cs with
  | [] => [acc.reverse]
  | c :: rest =>
    if c = '\n' then acc.reverse :: splitLinesAux rest []
    else splitLinesAux rest (c :: acc)

/-- The lines of a string, as character lists. -/
def splitLines (s : String) : List (List Char) := splitLinesAux s.data []

/-- How many lines of `out` are the catalog entry for model `m` (either
plain or annotated as default). -/
def countModelLine (out : String) (m : String) : Nat :=
  ((splitLines out).filter
    (fun l => l == ("- " ++ m).data || l == ("- " ++ m ++ " (default)").data)).length

/-- How many lines of `out` carry the default annotation. -/
def countDefaultLines (out : String) : Nat :=
  ((splitLines out).filter (fun l => List.isSuffixOf (" (default)").data l)).length

/-- Arguments that pass both generation tools' validation; used to
instantiate universally quantified theorems at a concrete input. -/
def argsOk : ToolArgs :=
  { prompt := some "hi",
    messages := some (MessagesArg.arr [{ role := "user", content := "hi" }]) }

/-! ### Claims -/

/-- C7: a `generate_text` call whose `prompt` is missing or the empty string
returns the fixed "Prompt is required" error text and invokes no backend. -/
theorem C7_prompt_required (config : Config) (backend : Backend) (args : ToolArgs)
    (h : args.prompt = none ∨ args.prompt = some "") :
    handleToolCall config backend "generate_text" args =
      { text := "Error: Prompt is required", calls := [] } := by
  unfold handleToolCall
  rcases h with h | h <;> rw [h] <;> rfl

/-- Witness for C7: the empty argument object. -/
theorem C7_prompt_required_witness :
    (({} : ToolArgs).prompt = none ∨ ({} : ToolArgs).prompt = some "") ∧
    handleToolCall ⟨true, true, true⟩ (fun _ _ => BackendOutcome.ok ⟨[]⟩) "generate_text" {} =
      { text := "Error: Prompt is required", calls := [] } :=
  ⟨Or.inl rfl,
   C7_prompt_required ⟨true, true, true⟩ (fun _ _ => BackendOutcome.ok ⟨[]⟩) {} (Or.inl rfl)⟩

/-- C8: a `chat_conversation` call whose `messages` is absent, not an array,
or an empty array returns the fixed "Messages array is required" error text
and invokes no backend. -/
theorem C8_messages_required (config : Config) (backend : Backend) (args : ToolArgs)
    (h : args.messages = none ∨ args.messages = some MessagesArg.notArray ∨
         args.messages = some (MessagesArg.arr [])) :
    handleToolCall config backend "chat_conversation" args =
      { text := "Error: Messages array is required", calls := [] } := by
  unfold handleToolCall
  rcases h with h | h | h <;> rw [h] <;> rfl

/-- Witness for C8: a non-array `messages` value. -/
theorem C8_messages_required_witness :
    (({ messages := some MessagesArg.notArray } : ToolArgs).messages = none ∨
     ({ messages := some MessagesArg.notArray } : ToolArgs).messages = some MessagesArg.notArray ∨
     ({ messages := some MessagesArg.notArray } : ToolArgs).messages = some (MessagesArg.arr [])) ∧
    handleToolCall ⟨true, true, true⟩ (fun _ _ => BackendOutcome.ok ⟨[]⟩) "chat_conversation"
      { messages := some MessagesArg.notArray } =
      { text := "Error: Messages array is required", calls := [] } :=
  ⟨Or.inr (Or.inl rfl),
   C8_messages_required ⟨true, true, true⟩ (fun _ _ => BackendOutcome.ok ⟨[]⟩)
     { messages := some MessagesArg.notArray } (Or.inr (Or.inl rfl))⟩

/-- C1 counterexample: with zero providers configured, `list_models` does
not enumerate the credential slots — its text is the short
"No AI providers configured." string, which does not even mention
`HF_TOKEN` — contradicting the claim that each of the three tools returns
text enumerating the three credential slots. -/
theorem C1_counterexample :
    (handleToolCall ⟨false, false, false⟩ (fun _ _ => BackendOutcome.ok ⟨[]⟩)
      "list_models" {}).text = "No AI providers configured." ∧
    ¬ ("HF_TOKEN".data <:+:
      (handleToolCall ⟨false, false, false⟩ (fun _ _ => BackendOutcome.ok ⟨[]⟩)
        "list_models" {}).text.data) := by
  constructor
  · rfl
  · decide

/-- C1 (amended): with zero providers configured no backend is invoked by
any tool, and `generate_text` (with a valid prompt) returns the text
enumerating the three credential slots, while `list_models` and
`chat_conversation` (with a valid message array) return the short
"No AI providers configured." text instead. -/
theorem C1_no_providers (config : Config) (backend : Backend) (args : ToolArgs)
    (prompt : String) (messages : List ChatMessage)
    (hcfg : getAvailableProviders config = [])
    (hp : args.prompt = some prompt) (hpne : prompt ≠ "")
    (hm : args.messages = some (MessagesArg.arr messages)) (hmne : messages ≠ []) :
    handleToolCall config backend "generate_text" args =
      { text := noProvidersGenerateText, calls := [] } ∧
    handleToolCall config backend "list_models" args =
      { text := "No AI providers configured.", calls := [] } ∧
    handleToolCall config backend "chat_conversation" args =
      { text := "No AI providers configured.", calls := [] } ∧
    "HF_TOKEN".data <:+: noProvidersGenerateText.data ∧
    "OPENAI_API_KEY".data <:+: noProvidersGenerateText.data ∧
    "ANTHROPIC_API_KEY".data <:+: noProvidersGenerateText.data := by
  refine ⟨?_, ?_, ?_, by decide, by decide, by decide⟩
  · unfold handleToolCall
    rw [hp]
    simp only [if_neg hpne, hcfg]
    rfl
  · rw [handle_list_models]
    unfold listModelsResult
    simp only [hcfg]
    rfl
  · unfold handleToolCall
    rw [hm]
    simp only [String.reduceEq, reduceIte, if_neg hmne, hcfg]

/-- Witness for C1 (amended): the all-absent configuration. -/
theorem C1_no_providers_witness :
    getAvailableProviders ⟨false, false, false⟩ = [] ∧
    handleToolCall ⟨false, false, false⟩ (fun _ _ => BackendOutcome.ok ⟨[]⟩)
      "generate_text" argsOk = { text := noProvidersGenerateText, calls := [] } :=
  ⟨rfl,
   (C1_no_providers ⟨false, false, false⟩ (fun _ _ => BackendOutcome.ok ⟨[]⟩) argsOk
     "hi" [{ role := "user", content := "hi" }] rfl rfl (by decide) rfl (by decide)).1⟩

/-- C2 counterexample: an error carrying message "boom" (no status) does not
yield "boom" verbatim as the response text — the text is the prefixed
"Error: boom". -/
theorem C2_counterexample :
    (handleToolCall ⟨true, false, false⟩ (fun _ _ => BackendOutcome.err ⟨none, some "boom"⟩)
      "generate_text" { prompt := some "hi" }).text ≠ "boom" ∧
    (handleToolCall ⟨true, false, false⟩ (fun _ _ => BackendOutcome.err ⟨none, some "boom"⟩)
      "generate_text" { prompt := some "hi" }).text = "Error: boom" := by
  constructor
  · decide
  · rfl

/-- C2 (amended): every backend error is mapped to a response text (the
handler is total); classification in priority order: status 401 yields the
authentication text naming the selected provider, status 429 the rate-limit
text naming it, an error carrying a non-empty message yields that message
prefixed with "Error: ", and otherwise the tool-dependent generic fallback,
also prefixed with "Error: ". -/
theorem C2_error_classification (config : Config) (args : ToolArgs) (e : BackendError)
    (prompt : String) (messages : List ChatMessage)
    (hp : args.prompt = some prompt) (hpne : prompt ≠ "")
    (hm : args.messages = some (MessagesArg.arr messages)) (hmne : messages ≠ [])
    (hcfg : getAvailableProviders config ≠ []) :
    (e.status = some 401 →
      (handleToolCall config (fun _ _ => BackendOutcome.err e) "generate_text" args).text =
        "Error: " ++ ("Authentication failed for " ++
          resolvedProvider (getAvailableProviders config) args.provider ++
          ". Please check your API key.") ∧
      (handleToolCall config (fun _ _ => BackendOutcome.err e) "chat_conversation" args).text =
        "Error: " ++ ("Authentication failed for " ++
          resolvedProvider (getAvailableProviders config) args.provider ++
          ". Please check your API key.")) ∧
    (e.status = some 429 →
      (handleToolCall config (fun _ _ => BackendOutcome.err e) "generate_text" args).text =
        "Error: " ++ ("Rate limit exceeded for " ++
          resolvedProvider (getAvailableProviders config) args.provider ++
          ". Please try again later.") ∧
      (handleToolCall config (fun _ _ => BackendOutcome.err e) "chat_conversation" args).text =
        "Error: " ++ ("Rate limit exceeded for " ++
          resolvedProvider (getAvailableProviders config) args.provider ++
          ". Please try again later.")) ∧
    (∀ m, e.status ≠ some 401 → e.status ≠ some 429 → e.message = some m → m ≠ "" →
      (handleToolCall config (fun _ _ => BackendOutcome.err e) "generate_text" args).text =
        "Error: " ++ m ∧
      (handleToolCall config (fun _ _ => BackendOutcome.err e) "chat_conversation" args).text =
        "Error: " ++ m) ∧
    (e.status ≠ some 401 → e.status ≠ some 429 →
      (e.message = none ∨ e.message = some "") →
      (handleToolCall config (fun _ _ => BackendOutcome.err e) "generate_text" args).text =
        "Error: " ++ "Failed to generate text" ∧
      (handleToolCall config (fun _ _ => BackendOutcome.err e) "chat_conversation" args).text =
        "Error: " ++ "Failed to process chat") := by
  rw [handle_generate_text config (fun _ _ => BackendOutcome.err e) args prompt hp hpne hcfg,
      handle_chat_conversation config (fun _ _ => BackendOutcome.err e) args messages hm hmne hcfg]
  unfold dispatchOutcome renderError
  refine ⟨fun h401 => ?_, fun h429 => ?_,
          fun m h1 h2 hmsg hmne2 => ?_, fun h1 h2 h3 => ?_⟩
  · simp [h401]
  · simp [h429]
  · simp [if_neg h1, if_neg h2, hmsg, hmne2]
  · rcases h3 with h3 | h3 <;> simp [if_neg h1, if_neg h2, h3]

/-- Witness for C2 (amended): a 401 error under the huggingface-only
configuration. -/
theorem C2_error_classification_witness :
    getAvailableProviders ⟨true, false, false⟩ ≠ [] ∧
    (handleToolCall ⟨true, false, false⟩
      (fun _ _ => BackendOutcome.err ⟨some 401, none⟩) "generate_text" argsOk).text =
      "Error: " ++ ("Authentication failed for " ++
        resolvedProvider (getAvailableProviders ⟨true, false, false⟩) argsOk.provider ++
        ". Please check your API key.") :=
  ⟨by decide,
   ((C2_error_classification ⟨true, false, false⟩ argsOk ⟨some 401, none⟩ "hi"
      [{ role := "user", content := "hi" }] rfl (by decide) rfl (by decide) (by decide)).1
     rfl).1⟩

/-- C3 counterexample: a caller-supplied `temperature` of 0 is not passed
through — the recorded backend invocation carries the default 0.7,
contradicting "temperature equal to the caller-supplied value when
present". -/
theorem C3_counterexample :
    ((handleToolCall ⟨true, false, false⟩ (fun _ _ => BackendOutcome.ok ⟨[]⟩)
      "generate_text" { prompt := some "hi", temperature := some 0 }).calls.map
        fun c => (Prod.snd c).temperature) = [7/10] ∧
    ((handleToolCall ⟨true, false, false⟩ (fun _ _ => BackendOutcome.ok ⟨[]⟩)
      "generate_text" { prompt := some "hi", temperature := some 0 }).calls.map
        fun c => (Prod.snd c).temperature) ≠ [0] := by
  have h1 : ((handleToolCall ⟨true, false, false⟩ (fun _ _ => BackendOutcome.ok ⟨[]⟩)
      "generate_text" { prompt := some "hi", temperature := some 0 }).calls.map
        fun c => (Prod.snd c).temperature) = [7/10] := rfl
  refine ⟨h1, ?_⟩
  rw [h1]
  norm_num

/-- C3 (amended): a validated call invokes the backend exactly once, with
the resolved model, the single-user-message list for `generate_text` and the
caller's messages verbatim for `chat_conversation`, and with `max_tokens` /
`temperature` equal to the caller-supplied value when present and non-zero,
and the defaults 1024 / 0.7 otherwise (zero is treated as absent). -/
theorem C3_request_params (config : Config) (backend : Backend) (args : ToolArgs)
    (prompt : String) (messages : List ChatMessage)
    (hp : args.prompt = some prompt) (hpne : prompt ≠ "")
    (hm : args.messages = some (MessagesArg.arr messages)) (hmne : messages ≠ [])
    (hcfg : getAvailableProviders config ≠ []) :
    (handleToolCall config backend "generate_text" args).calls =
      [(resolvedProvider (getAvailableProviders config) args.provider,
        { model := resolvedModel (resolvedProvider (getAvailableProviders config) args.provider)
            args.model,
          messages := [{ role := "user", content := prompt }],
          max_tokens := resolvedNum args.max_tokens 1024,
          temperature := resolvedNum args.temperature (7/10) })] ∧
    (handleToolCall config backend "chat_conversation" args).calls =
      [(resolvedProvider (getAvailableProviders config) args.provider,
        { model := resolvedModel (resolvedProvider (getAvailableProviders config) args.provider)
            args.model,
          messages := messages,
          max_tokens := resolvedNum args.max_tokens 1024,
          temperature := resolvedNum args.temperature (7/10) })] ∧
    (∀ v, args.max_tokens = some v → v ≠ 0 → resolvedNum args.max_tokens 1024 = v) ∧
    (args.max_tokens = none → resolvedNum args.max_tokens 1024 = 1024) ∧
    (∀ v, args.temperature = some v → v ≠ 0 → resolvedNum args.temperature (7/10) = v) ∧
    (args.temperature = none → resolvedNum args.temperature (7/10) = 7/10) := by
  rw [handle_generate_text config backend args prompt hp hpne hcfg,
      handle_chat_conversation config backend args messages hm hmne hcfg]
  unfold dispatchOutcome generateParams chatParams
  refine ⟨?_, ?_, fun v hv hvne => ?_, fun hv => ?_, fun v hv hvne => ?_, fun hv => ?_⟩
  · cases backend (resolvedProvider (getAvailableProviders config) args.provider)
      { model := resolvedModel (resolvedProvider (getAvailableProviders config) args.provider)
          args.model,
        messages := [{ role := "user", content := prompt }],
        max_tokens := resolvedNum args.max_tokens 1024,
        temperature := resolvedNum args.temperature (7/10) } <;> rfl
  · cases backend (resolvedProvider (getAvailableProviders config) args.provider)
      { model := resolvedModel (resolvedProvider (getAvailableProviders config) args.provider)
          args.model,
        messages := messages,
        max_tokens := resolvedNum args.max_tokens 1024,
        temperature := resolvedNum args.temperature (7/10) } <;> rfl
  · simp [resolvedNum, hv, hvne]
  · simp [resolvedNum, hv]
  · simp [resolvedNum, hv, hvne]
  · simp [resolvedNum, hv]

/-- Witness for C3 (amended): huggingface-only configuration, defaults in
effect. -/
theorem C3_request_params_witness :
    getAvailableProviders ⟨true, false, false⟩ ≠ [] ∧
    (handleToolCall ⟨true, false, false⟩ (fun _ _ => BackendOutcome.ok ⟨[]⟩)
      "generate_text" argsOk).calls =
      [(resolvedProvider (getAvailableProviders ⟨true, false, false⟩) argsOk.provider,
        { model := resolvedModel
            (resolvedProvider (getAvailableProviders ⟨true, false, false⟩) argsOk.provider)
            argsOk.model,
          messages := [{ role := "user", content := "hi" }],
          max_tokens := resolvedNum argsOk.max_tokens 1024,
          temperature := resolvedNum argsOk.temperature (7/10) })] :=
  ⟨by decide,
   (C3_request_params ⟨true, false, false⟩ (fun _ _ => BackendOutcome.ok ⟨[]⟩) argsOk
     "hi" [{ role := "user", content := "hi" }] rfl (by decide) rfl (by decide) (by decide)).1⟩

/-- C10: a caller-supplied `temperature` of 0 or `max_tokens` of 0 is
replaced by the defaults 0.7 and 1024 in the recorded backend invocation,
for both generation tools, because the source substitutes on falsy values
rather than only on absence. -/
theorem C10_zero_treated_as_absent (config : Config) (backend : Backend) (args : ToolArgs)
    (prompt : String) (messages : List ChatMessage)
    (hp : args.prompt = some prompt) (hpne : prompt ≠ "")
    (hm : args.messages = some (MessagesArg.arr messages)) (hmne : messages ≠ [])
    (hcfg : getAvailableProviders config ≠ [])
    (ht : args.temperature = some 0) (hmt : args.max_tokens = some 0) :
    ((handleToolCall config backend "generate_text" args).calls.map
      fun c => ((Prod.snd c).max_tokens, (Prod.snd c).temperature)) = [(1024, 7/10)] ∧
    ((handleToolCall config backend "chat_conversation" args).calls.map
      fun c => ((Prod.snd c).max_tokens, (Prod.snd c).temperature)) = [(1024, 7/10)] := by
  rw [handle_generate_text config backend args prompt hp hpne hcfg,
      handle_chat_conversation config backend args messages hm hmne hcfg]
  unfold dispatchOutcome generateParams chatParams
  constructor
  · cases backend (resolvedProvider (getAvailableProviders config) args.provider)
      { model := resolvedModel (resolvedProvider (getAvailableProviders config) args.provider)
          args.model,
        messages := [{ role := "user", content := prompt }],
        max_tokens := resolvedNum args.max_tokens 1024,
        temperature := resolvedNum args.temperature (7/10) } <;>
      simp [resolvedNum, ht, hmt]
  · cases backend (resolvedProvider (getAvailableProviders config) args.provider)
      { model := resolvedModel (resolvedProvider (getAvailableProviders config) args.provider)
          args.model,
        messages := messages,
        max_tokens := resolvedNum args.max_tokens 1024,
        temperature := resolvedNum args.temperature (7/10) } <;>
      simp [resolvedNum, ht, hmt]

/-- Witness for C10: explicit zeros supplied for both numeric arguments. -/
theorem C10_zero_treated_as_absent_witness :
    getAvailableProviders ⟨true, false, false⟩ ≠ [] ∧
    ((handleToolCall ⟨true, false, false⟩ (fun _ _ => BackendOutcome.ok ⟨[]⟩)
      "generate_text"
      { prompt := some "hi",
        messages := some (MessagesArg.arr [{ role := "user", content := "hi" }]),
        temperature := some 0, max_tokens := some 0 }).calls.map
        fun c => ((Prod.snd c).max_tokens, (Prod.snd c).temperature)) = [(1024, 7/10)] :=
  ⟨by decide,
   (C10_zero_treated_as_absent ⟨true, false, false⟩ (fun _ _ => BackendOutcome.ok ⟨[]⟩)
     { prompt := some "hi",
       messages := some (MessagesArg.arr [{ role := "user", content := "hi" }]),
       temperature := some 0, max_tokens := some 0 }
     "hi" [{ role := "user", content := "hi" }] rfl (by decide) rfl (by decide) (by decide)
     rfl rfl).1⟩

/-- The resolved provider is always a member of a non-empty available
list. -/
theorem resolvedProvider_mem (availableProviders : List String) (provider : Option String)
    (h : availableProviders ≠ []) :
    resolvedProvider availableProviders provider ∈ availableProviders := by
  cases availableProviders with
  | nil => exact absurd rfl h
  | cons a as =>
    cases provider with
    | none => simp [resolvedProvider]
    | some p =>
      simp only [resolvedProvider]
      split_ifs with hc
      · exact hc.2
      · simp

/-- C4 counterexample: a successful backend response whose
`choices[0].message.content` is the empty string does not round-trip — the
returned text is the placeholder "No response generated", not `""`. -/
theorem C4_counterexample :
    (handleToolCall ⟨true, false, false⟩
      (fun _ _ => BackendOutcome.ok ⟨[⟨some ⟨some ""⟩⟩]⟩)
      "generate_text" { prompt := some "hi" }).text = "No response generated" ∧
    (handleToolCall ⟨true, false, false⟩
      (fun _ _ => BackendOutcome.ok ⟨[⟨some ⟨some ""⟩⟩]⟩)
      "generate_text" { prompt := some "hi" }).text ≠ "" := by
  constructor
  · rfl
  · decide

/-- C4 (amended): for a successful backend call whose
`choices[0].message.content` is a non-empty string X, the returned text is
exactly X; when the field is absent the text is exactly the placeholder
"No response generated"; in both cases the call is recorded as one
successful backend invocation — for both generation tools. -/
theorem C4_round_trip (config : Config) (args : ToolArgs) (r : BackendResponse)
    (prompt : String) (messages : List ChatMessage)
    (hp : args.prompt = some prompt) (hpne : prompt ≠ "")
    (hm : args.messages = some (MessagesArg.arr messages)) (hmne : messages ≠ [])
    (hcfg : getAvailableProviders config ≠ []) :
    (∀ X, (r.choices.head?.bind Choice.message).bind ChoiceMessage.content = some X → X ≠ "" →
      (handleToolCall config (fun _ _ => BackendOutcome.ok r) "generate_text" args).text = X ∧
      (handleToolCall config (fun _ _ => BackendOutcome.ok r) "chat_conversation" args).text = X) ∧
    ((r.choices.head?.bind Choice.message).bind ChoiceMessage.content = none →
      (handleToolCall config (fun _ _ => BackendOutcome.ok r) "generate_text" args).text =
        "No response generated" ∧
      (handleToolCall config (fun _ _ => BackendOutcome.ok r) "chat_conversation" args).text =
        "No response generated") ∧
    (handleToolCall config (fun _ _ => BackendOutcome.ok r) "generate_text" args).calls.length = 1 ∧
    (handleToolCall config (fun _ _ => BackendOutcome.ok r) "chat_conversation" args).calls.length
      = 1 := by
  rw [handle_generate_text config (fun _ _ => BackendOutcome.ok r) args prompt hp hpne hcfg,
      handle_chat_conversation config (fun _ _ => BackendOutcome.ok r) args messages hm hmne hcfg]
  unfold dispatchOutcome extractText
  refine ⟨fun X hX hXne => ?_, fun hnone => ?_, rfl, rfl⟩
  · simp [hX, hXne]
  · simp [hnone]

/-- Witness for C4 (amended): a response carrying content "hello". -/
theorem C4_round_trip_witness :
    getAvailableProviders ⟨true, false, false⟩ ≠ [] ∧
    (handleToolCall ⟨true, false, false⟩
      (fun _ _ => BackendOutcome.ok ⟨[⟨some ⟨some "hello"⟩⟩]⟩)
      "generate_text" argsOk).text = "hello" :=
  ⟨by decide,
   ((C4_round_trip ⟨true, false, false⟩ argsOk ⟨[⟨some ⟨some "hello"⟩⟩]⟩ "hi"
      [{ role := "user", content := "hi" }] rfl (by decide) rfl (by decide) (by decide)).1
     "hello" rfl (by decide)).1⟩

/-- C5: for both generation tools, a requested provider that is configured
is the one invoked regardless of priority order; an absent requested
provider, or one not in the available list, falls back to the first
available entry. -/
theorem C5_provider_selection (config : Config) (backend : Backend) (args : ToolArgs)
    (prompt : String) (messages : List ChatMessage)
    (hp : args.prompt = some prompt) (hpne : prompt ≠ "")
    (hm : args.messages = some (MessagesArg.arr messages)) (hmne : messages ≠ [])
    (hcfg : getAvailableProviders config ≠ []) :
    (∀ p, args.provider = some p → p ∈ getAvailableProviders config →
      (handleToolCall config backend "generate_text" args).calls.map Prod.fst = [p] ∧
      (handleToolCall config backend "chat_conversation" args).calls.map Prod.fst = [p]) ∧
    (args.provider = none →
      (handleToolCall config backend "generate_text" args).calls.map Prod.fst =
        [(getAvailableProviders config).headD ""] ∧
      (handleToolCall config backend "chat_conversation" args).calls.map Prod.fst =
        [(getAvailableProviders config).headD ""]) ∧
    (∀ p, args.provider = some p → p ∉ getAvailableProviders config →
      (handleToolCall config backend "generate_text" args).calls.map Prod.fst =
        [(getAvailableProviders config).headD ""] ∧
      (handleToolCall config backend "chat_conversation" args).calls.map Prod.fst =
        [(getAvailableProviders config).headD ""]) := by
  rw [handle_generate_text config backend args prompt hp hpne hcfg,
      handle_chat_conversation config backend args messages hm hmne hcfg]
  have hmap : ∀ (sp : String) (rp : RequestParams) (fb : String),
      (dispatchOutcome backend sp rp fb).calls.map Prod.fst = [sp] := by
    intro sp rp fb
    unfold dispatchOutcome
    cases backend sp rp <;> rfl
  rw [hmap, hmap]
  refine ⟨fun p hprov hmem => ?_, fun hprov => ?_, fun p hprov hnmem => ?_⟩
  · have hne : p ≠ "" := by
      rcases mem_getAvailableProviders config p hmem with h | h | h <;> subst h <;> decide
    constructor <;> simp [resolvedProvider, hprov, hmem, hne]
  · constructor <;> simp [resolvedProvider, hprov]
  · constructor <;> simp [resolvedProvider, hprov, hnmem]

/-- Witness for C5: with huggingface and openai configured, requesting
"openai" overrides the priority order. -/
theorem C5_provider_selection_witness :
    getAvailableProviders ⟨true, true, false⟩ ≠ [] ∧
    (handleToolCall ⟨true, true, false⟩ (fun _ _ => BackendOutcome.ok ⟨[]⟩) "generate_text"
      { prompt := some "hi", provider := some "openai",
        messages := some (MessagesArg.arr [{ role := "user", content := "hi" }]) }).calls.map
      Prod.fst = ["openai"] ∧
    (handleToolCall ⟨true, true, false⟩ (fun _ _ => BackendOutcome.ok ⟨[]⟩) "chat_conversation"
      { prompt := some "hi", provider := some "openai",
        messages := some (MessagesArg.arr [{ role := "user", content := "hi" }]) }).calls.map
      Prod.fst = ["openai"] :=
  ⟨by decide,
   (C5_provider_selection ⟨true, true, false⟩ (fun _ _ => BackendOutcome.ok ⟨[]⟩)
     { prompt := some "hi", provider := some "openai",
       messages := some (MessagesArg.arr [{ role := "user", content := "hi" }]) }
     "hi" [{ role := "user", content := "hi" }] rfl (by decide) rfl (by decide) (by decide)).1
     "openai" rfl (by decide)⟩

/-- C6 counterexample: a supplied but empty `model` string is not used
verbatim — the recorded invocation carries the provider's default model,
contradicting "if requestedModel is present, it is used verbatim". -/
theorem C6_counterexample :
    ((handleToolCall ⟨true, false, false⟩ (fun _ _ => BackendOutcome.ok ⟨[]⟩)
      "generate_text" { prompt := some "hi", model := some "" }).calls.map
        fun c => (Prod.snd c).model) = ["meta-llama/Llama-3.2-3B-Instruct"] ∧
    ((handleToolCall ⟨true, false, false⟩ (fun _ _ => BackendOutcome.ok ⟨[]⟩)
      "generate_text" { prompt := some "hi", model := some "" }).calls.map
        fun c => (Prod.snd c).model) ≠ [""] := by
  constructor
  · rfl
  · decide

/-- C6 (amended): for both generation tools, an omitted or empty
`requestedModel` yields the selected provider's default model in the
invocation, and a present non-empty `requestedModel` is used verbatim with
no validation against the catalog (no membership in `MODELS` is required);
the selected provider always has a default model. -/
theorem C6_model_selection (config : Config) (backend : Backend) (args : ToolArgs)
    (prompt : String) (messages : List ChatMessage)
    (hp : args.prompt = some prompt) (hpne : prompt ≠ "")
    (hm : args.messages = some (MessagesArg.arr messages)) (hmne : messages ≠ [])
    (hcfg : getAvailableProviders config ≠ []) :
    (args.model = none →
      (handleToolCall config backend "generate_text" args).calls.map
        (fun c => (Prod.snd c).model) =
        [(getDefaultModel (resolvedProvider (getAvailableProviders config) args.provider)).getD ""]
      ∧
      (handleToolCall config backend "chat_conversation" args).calls.map
        (fun c => (Prod.snd c).model) =
        [(getDefaultModel (resolvedProvider (getAvailableProviders config) args.provider)).getD ""])
    ∧
    (∀ m, args.model = some m → m ≠ "" →
      (handleToolCall config backend "generate_text" args).calls.map
        (fun c => (Prod.snd c).model) = [m] ∧
      (handleToolCall config backend "chat_conversation" args).calls.map
        (fun c => (Prod.snd c).model) = [m]) ∧
    getDefaultModel (resolvedProvider (getAvailableProviders config) args.provider) ≠ none := by
  rw [handle_generate_text config backend args prompt hp hpne hcfg,
      handle_chat_conversation config backend args messages hm hmne hcfg]
  have hmap : ∀ (sp : String) (rp : RequestParams) (fb : String),
      (dispatchOutcome backend sp rp fb).calls.map (fun c => (Prod.snd c).model) = [rp.model] := by
    intro sp rp fb
    unfold dispatchOutcome
    cases backend sp rp <;> rfl
  rw [hmap, hmap]
  have hdef : getDefaultModel (resolvedProvider (getAvailableProviders config) args.provider)
      ≠ none := by
    rcases mem_getAvailableProviders config _
      (resolvedProvider_mem (getAvailableProviders config) args.provider hcfg) with h | h | h <;>
      rw [h] <;> decide
  refine ⟨fun hmodel => ?_, fun m hmodel hmne2 => ?_, hdef⟩
  · constructor <;> simp [generateParams, chatParams, resolvedModel, hmodel]
  · constructor <;> simp [generateParams, chatParams, resolvedModel, hmodel, hmne2]

/-- Witness for C6 (amended): an arbitrary model id unknown to every
catalog is passed through verbatim. -/
theorem C6_model_selection_witness :
    getAvailableProviders ⟨true, false, false⟩ ≠ [] ∧
    (handleToolCall ⟨true, false, false⟩ (fun _ _ => BackendOutcome.ok ⟨[]⟩) "generate_text"
      { prompt := some "hi", model := some "not-a-catalog-model",
        messages := some (MessagesArg.arr [{ role := "user", content := "hi" }]) }).calls.map
      (fun c => (Prod.snd c).model) = ["not-a-catalog-model"] ∧
    (handleToolCall ⟨true, false, false⟩ (fun _ _ => BackendOutcome.ok ⟨[]⟩) "chat_conversation"
      { prompt := some "hi", model := some "not-a-catalog-model",
        messages := some (MessagesArg.arr [{ role := "user", content := "hi" }]) }).calls.map
      (fun c => (Prod.snd c).model) = ["not-a-catalog-model"] :=
  ⟨by decide,
   (C6_model_selection ⟨true, false, false⟩ (fun _ _ => BackendOutcome.ok ⟨[]⟩)
     { prompt := some "hi", model := some "not-a-catalog-model",
       messages := some (MessagesArg.arr [{ role := "user", content := "hi" }]) }
     "hi" [{ role := "user", content := "hi" }] rfl (by decide) rfl (by decide) (by decide)).2.1
     "not-a-catalog-model" rfl (by decide)⟩

/-- C9: with at least one provider configured, the `list_models` text
contains, for every available provider, every catalog model on exactly one
entry line; the total number of default-annotated lines equals the number of
available providers; for each available provider the line annotating its
designated default model occurs exactly once and that default model belongs
to its catalog; and no backend is invoked. -/
theorem C9_list_models (config : Config) (backend : Backend) (args : ToolArgs)
    (hcfg : getAvailableProviders config ≠ []) :
    (handleToolCall config backend "list_models" args).calls = [] ∧
    countDefaultLines (handleToolCall config backend "list_models" args).text =
      (getAvailableProviders config).length ∧
    ∀ p ∈ getAvailableProviders config,
      (∀ m ∈ MODELS p, countModelLine (handleToolCall config backend "list_models" args).text m
        = 1) ∧
      ((splitLines (handleToolCall config backend "list_models" args).text).filter
        (fun l => l == ("- " ++ (getDefaultModel p).getD "" ++ " (default)").data)).length = 1 ∧
      (getDefaultModel p).getD "" ∈ MODELS p := by
  rw [handle_list_models]
  rcases config with ⟨hf, op, an⟩
  cases hf <;> cases op <;> cases an
  · exact absurd rfl hcfg
  all_goals exact by decide

/-- Witness for C9: the huggingface-only configuration invokes no backend
from `list_models`. -/
theorem C9_list_models_witness :
    getAvailableProviders ⟨true, false, false⟩ ≠ [] ∧
    (handleToolCall ⟨true, false, false⟩ (fun _ _ => BackendOutcome.ok ⟨[]⟩)
      "list_models" {}).calls = [] :=
  ⟨by decide,
   (C9_list_models ⟨true, false, false⟩ (fun _ _ => BackendOutcome.ok ⟨[]⟩) {} (by decide)).1⟩
